import Mathlib

/-!
Verification of `src/client/scripts/esm/game/rendering/legalmoveshapes.js`
(infinitechess.org): the procedural vertex-mesh generators for "legal move"
indicators (adaptive dots and corner-triangle markers).

Modelling conventions:
* JavaScript numbers are modelled as rationals (`ℚ`); all the arithmetic the
  claims concern is exact.
* A color `[r, g, b, a]` is a `Color` structure of four rationals.
* A vertex buffer is a flat `List ℚ` (6 floats per vertex, 18 per triangle),
  exactly as the source builds it.
* The board collaborator `board.gsquareCenter()` is modelled as an oracle
  `f : ℕ → ℚ` giving the value returned by the n-th call, threaded through an
  explicit call counter, so that the number of reads performed by a generator
  is part of the embedding (the source calls it once per axis).
* `shapes.getDataCircle` lives in `shapes.js`, which is not part of the
  sources; it is modelled from the spec (see its doc comment).
-/

/-- A color `[r, g, b, a]`, four floating-point channels. -/
structure Color where
  r : ℚ
  g : ℚ
  b : ℚ
  a : ℚ
deriving DecidableEq, Repr

/-- One call to the board collaborator `board.gsquareCenter()`: given the
oracle `f` of successive return values and the current call counter, returns
the value of this call and the incremented counter. -/
def gsquareCenter (f : ℕ → ℚ) (n : ℕ) : ℚ × ℕ := (f n, n + 1)

/-- Modelled from the spec: `shapes.getDataCircle` (the circle-mesh primitive
in `shapes.js`) is not among the sources.  The spec specifies only that it is
a "generic disc triangulator" that emits `resolution` triangles in a fan with
the given color on every vertex.  The rim geometry is abstracted as a
parameter `pos`, giving the unit-circle position of the i-th fan rim vertex;
triangle `i` is (center, center + radius·pos i, center + radius·pos (i+1)),
each vertex carrying `(r, g, b, a)`. -/
def getDataCircle (pos : ℕ → ℚ × ℚ) (x y radius : ℚ) (resolution : ℕ)
    (r g b a : ℚ) : List ℚ :=
  (List.range resolution).flatMap (fun i =>
    [x, y, r, g, b, a,
     x + radius * (pos i).1, y + radius * (pos i).2, r, g, b, a,
     x + radius * (pos (i + 1)).1, y + radius * (pos (i + 1)).2, r, g, b, a])

/-- The resolution selection of `getDataLegalMoveDot`
(legalmoveshapes.js lines 17–22):
`let resolution = perspectiveOn ? resolutionCap : Math.ceil(resolutionMultiplier * scale)`
followed by the two clamping `if`s, with `resolutionMultiplier = 28`,
`resolutionCap = 32`, `resolutionMin = 5`. -/
def dotResolution (scale : ℚ) (perspectiveOn : Bool) : ℤ :=
  let resolutionMultiplier : ℚ := 28
  let resolutionCap : ℤ := 32
  let resolutionMin : ℤ := 5
  let resolution0 : ℤ :=
    if perspectiveOn then resolutionCap else ⌈resolutionMultiplier * scale⌉
  let resolution1 : ℤ :=
    if resolution0 > resolutionCap then resolutionCap else resolution0
  if resolution1 < resolutionMin then resolutionMin else resolution1

/-- `getDataLegalMoveDot(coords, color, scale, perspectiveOn)`
(legalmoveshapes.js lines 12–35).  Beyond the vertex buffer it returns the
final board-read counter (the number of `board.gsquareCenter()` calls
performed), and takes the rim-geometry parameter of the spec-modelled circle
primitive. -/
def getDataLegalMoveDot (pos : ℕ → ℚ × ℚ) (f : ℕ → ℚ) (coords : ℚ × ℚ)
    (color : Color) (scale : ℚ) (perspectiveOn : Bool) : List ℚ × ℕ :=
  let radius : ℚ := 16/100
  let resolution : ℤ := dotResolution scale perspectiveOn
  let opacityOffset : ℚ := 2/10
  let r := color.r
  let g := color.g
  let b := color.b
  let a := color.a + opacityOffset
  -- `const x = coords[0] + (1 - board.gsquareCenter()) - 0.5;`
  let (o1, n1) := gsquareCenter f 0
  let x := coords.1 + (1 - o1) - 1/2
  -- `const y = coords[1] + (1 - board.gsquareCenter()) - 0.5;`
  let (o2, n2) := gsquareCenter f n1
  let y := coords.2 + (1 - o2) - 1/2
  (getDataCircle pos x y radius resolution.toNat r g b a, n2)

/-- The `addTriangle` helper of `getDataCornerTriangles`
(legalmoveshapes.js lines 52–58): pushes three vertices, each position
followed by the captured color. -/
def addTriangle (r g b a x1 y1 x2 y2 x3 y3 : ℚ) : List ℚ :=
  [x1, y1, r, g, b, a,
   x2, y2, r, g, b, a,
   x3, y3, r, g, b, a]

/-- `getDataCornerTriangles(centerX, centerY, triSize, color)`
(legalmoveshapes.js lines 46–98): four small triangles, one per corner of the
unit square centered at `(centerX, centerY)` (`halfSize = 1/2`), each offset
into its corner by `cornerOffset = triSize / 2`. -/
def getDataCornerTriangles (centerX centerY triSize : ℚ) (color : Color) :
    List ℚ :=
  let halfSize : ℚ := 1/2
  let r := color.r
  let g := color.g
  let b := color.b
  let a := color.a
  let topLeft := (centerX - halfSize, centerY + halfSize)
  let topRight := (centerX + halfSize, centerY + halfSize)
  let bottomLeft := (centerX - halfSize, centerY - halfSize)
  let bottomRight := (centerX + halfSize, centerY - halfSize)
  let cornerOffset := triSize / 2
  -- Top-left triangle (source comment: "triangles are clockwise in each corner")
  addTriangle r g b a
    topLeft.1 topLeft.2
    (topLeft.1 + cornerOffset) topLeft.2
    topLeft.1 (topLeft.2 - cornerOffset)
  -- Top-right triangle
  ++ addTriangle r g b a
    topRight.1 topRight.2
    (topRight.1 - cornerOffset) topRight.2
    topRight.1 (topRight.2 - cornerOffset)
  -- Bottom-left triangle
  ++ addTriangle r g b a
    bottomLeft.1 bottomLeft.2
    (bottomLeft.1 + cornerOffset) bottomLeft.2
    bottomLeft.1 (bottomLeft.2 + cornerOffset)
  -- Bottom-right triangle
  ++ addTriangle r g b a
    bottomRight.1 bottomRight.2
    (bottomRight.1 - cornerOffset) bottomRight.2
    bottomRight.1 (bottomRight.2 + cornerOffset)

/-- `getDataLegalMoveCornerTris(coords, color)`
(legalmoveshapes.js lines 106–118).  Beyond the vertex buffer it returns the
final board-read counter (the number of `board.gsquareCenter()` calls
performed). -/
def getDataLegalMoveCornerTris (f : ℕ → ℚ) (coords : ℚ × ℚ) (color : Color) :
    List ℚ × ℕ :=
  let triSize : ℚ := 50/100
  let opacityOffset : ℚ := 2/10
  let r := color.r
  let g := color.g
  let b := color.b
  let a := color.a + opacityOffset
  -- `const x = coords[0] + (1 - board.gsquareCenter()) - 0.5;`
  let (o1, n1) := gsquareCenter f 0
  let x := coords.1 + (1 - o1) - 1/2
  -- `const y = coords[1] + (1 - board.gsquareCenter()) - 0.5;`
  let (o2, n2) := gsquareCenter f n1
  let y := coords.2 + (1 - o2) - 1/2
  (getDataCornerTriangles x y triSize ⟨r, g, b, a⟩, n2)

/-- The generators as invoked with a board whose square-center offset is the
fixed value `o` throughout the call (the normal synchronous situation):
just the vertex buffer. -/
def getDataLegalMoveDotAt (pos : ℕ → ℚ × ℚ) (o : ℚ) (coords : ℚ × ℚ)
    (color : Color) (scale : ℚ) (perspectiveOn : Bool) : List ℚ :=
  (getDataLegalMoveDot pos (fun _ => o) coords color scale perspectiveOn).1

/-- `getDataLegalMoveCornerTris` with a fixed square-center offset `o`. -/
def getDataLegalMoveCornerTrisAt (o : ℚ) (coords : ℚ × ℚ) (color : Color) :
    List ℚ :=
  (getDataLegalMoveCornerTris (fun _ => o) coords color).1

/-- `vertexColorsAre r g b a buf` holds when `buf` is a whole number of
6-float vertices and every vertex carries exactly the color `(r, g, b, a)`
in its last four floats. -/
def vertexColorsAre (r g b a : ℚ) : List ℚ → Bool
  | [] => true
  | _ :: _ :: r' :: g' :: b' :: a' :: rest =>
    r' == r && g' == g && b' == b && a' == a && vertexColorsAre r g b a rest
  | _ => false

/-- Adds `dx` to every position-x float and `dy` to every position-y float of
a vertex buffer (6 floats per vertex, positions first), leaving the color
floats unchanged. -/
def translateBuf (dx dy : ℚ) : List ℚ → List ℚ
  | x :: y :: r :: g :: b :: a :: rest =>
    (x + dx) :: (y + dy) :: r :: g :: b :: a :: translateBuf dx dy rest
  | l => l

/-- Twice the signed area of the triangle `(x1,y1) (x2,y2) (x3,y3)`;
positive for counterclockwise winding (y-axis up), negative for clockwise. -/
def triSignedArea (x1 y1 x2 y2 x3 y3 : ℚ) : ℚ :=
  (x2 - x1) * (y3 - y1) - (x3 - x1) * (y2 - y1)

/-- Twice the signed area of the `i`-th triangle stored in a flat vertex
buffer (18 floats per triangle, each vertex 6 floats, position first). -/
def bufTriangleSignedArea (buf : List ℚ) (i : ℕ) : ℚ :=
  triSignedArea (buf.getD (18*i) 0) (buf.getD (18*i + 1) 0)
    (buf.getD (18*i + 6) 0) (buf.getD (18*i + 7) 0)
    (buf.getD (18*i + 12) 0) (buf.getD (18*i + 13) 0)

/-! ## Shared lemmas -/

/-- With perspective on, the resolution is the cap, `32`. -/
theorem dotResolution_true (scale : ℚ) : dotResolution scale true = 32 := by
  simp [dotResolution]

/-- With perspective off, the resolution is `⌈28·scale⌉` clamped into
`[5, 32]`. -/
theorem dotResolution_false_eq (scale : ℚ) :
    dotResolution scale false = max 5 (min 32 ⌈(28 : ℚ) * scale⌉) := by
  simp only [dotResolution, Bool.false_eq_true, if_false]
  generalize ⌈(28 : ℚ) * scale⌉ = c
  split_ifs <;> omega

/-- The chosen resolution always lies in `[5, 32]`. -/
theorem dotResolution_bounds (scale : ℚ) (p : Bool) :
    5 ≤ dotResolution scale p ∧ dotResolution scale p ≤ 32 := by
  cases p
  · rw [dotResolution_false_eq]
    generalize ⌈(28 : ℚ) * scale⌉ = c
    omega
  · rw [dotResolution_true]; omega

/-- The spec-modelled circle primitive emits `resolution` triangles of
18 floats each. -/
theorem getDataCircle_length (pos : ℕ → ℚ × ℚ) (x y radius : ℚ)
    (resolution : ℕ) (r g b a : ℚ) :
    (getDataCircle pos x y radius resolution r g b a).length =
      resolution * 18 := by
  induction resolution with
  | zero => simp [getDataCircle]
  | succ k ih =>
    simp only [getDataCircle, List.range_succ, List.flatMap_append,
      List.length_append] at ih ⊢
    simp_all
    omega

/-- The corner-triangle generator always emits 72 floats. -/
theorem cornerTris_length (f : ℕ → ℚ) (coords : ℚ × ℚ) (color : Color) :
    ((getDataLegalMoveCornerTris f coords color).1).length = 72 := by
  simp [getDataLegalMoveCornerTris, getDataCornerTriangles, addTriangle,
    gsquareCenter]

/-- Concatenating two buffers of well-colored whole vertices yields a buffer
of well-colored whole vertices. -/
theorem vertexColorsAre_append (r g b a : ℚ) :
    ∀ (l1 l2 : List ℚ), vertexColorsAre r g b a l1 = true →
      vertexColorsAre r g b a l2 = true →
      vertexColorsAre r g b a (l1 ++ l2) = true
  | [], l2, _, h2 => by simpa
  | x :: y :: r' :: g' :: b' :: a' :: rest, l2, h1, h2 => by
    simp only [vertexColorsAre, Bool.and_eq_true] at h1
    simp only [List.cons_append, vertexColorsAre, Bool.and_eq_true]
    exact ⟨h1.1, vertexColorsAre_append r g b a rest l2 h1.2 h2⟩
  | [x], l2, h1, h2 => by simp [vertexColorsAre] at h1
  | [x, y], l2, h1, h2 => by simp [vertexColorsAre] at h1
  | [x, y, z], l2, h1, h2 => by simp [vertexColorsAre] at h1
  | [x, y, z, w], l2, h1, h2 => by simp [vertexColorsAre] at h1
  | [x, y, z, w, v], l2, h1, h2 => by simp [vertexColorsAre] at h1

/-- Every vertex produced by the spec-modelled circle primitive carries
exactly the color it was given. -/
theorem getDataCircle_colors (pos : ℕ → ℚ × ℚ) (x y radius : ℚ)
    (resolution : ℕ) (r g b a : ℚ) :
    vertexColorsAre r g b a (getDataCircle pos x y radius resolution r g b a)
      = true := by
  induction resolution with
  | zero => simp [getDataCircle, vertexColorsAre]
  | succ k ih =>
    rw [getDataCircle, List.range_succ, List.flatMap_append]
    refine vertexColorsAre_append r g b a _ _ ih ?_
    simp [vertexColorsAre]

/-- Canonical expansion of `getDataCornerTriangles`: the four corner
triangles written out as one flat 72-float literal (top-left, top-right,
bottom-left, bottom-right; in each triangle the corner vertex first, then the
horizontally offset vertex, then the vertically offset one). -/
theorem getDataCornerTriangles_expand (X Y t : ℚ) (c : Color) :
    getDataCornerTriangles X Y t c =
      [X - 1/2, Y + 1/2, c.r, c.g, c.b, c.a,
       X - 1/2 + t/2, Y + 1/2, c.r, c.g, c.b, c.a,
       X - 1/2, Y + 1/2 - t/2, c.r, c.g, c.b, c.a,
       X + 1/2, Y + 1/2, c.r, c.g, c.b, c.a,
       X + 1/2 - t/2, Y + 1/2, c.r, c.g, c.b, c.a,
       X + 1/2, Y + 1/2 - t/2, c.r, c.g, c.b, c.a,
       X - 1/2, Y - 1/2, c.r, c.g, c.b, c.a,
       X - 1/2 + t/2, Y - 1/2, c.r, c.g, c.b, c.a,
       X - 1/2, Y - 1/2 + t/2, c.r, c.g, c.b, c.a,
       X + 1/2, Y - 1/2, c.r, c.g, c.b, c.a,
       X + 1/2 - t/2, Y - 1/2, c.r, c.g, c.b, c.a,
       X + 1/2, Y - 1/2 + t/2, c.r, c.g, c.b, c.a] := rfl

/-- Every vertex produced by `getDataCornerTriangles` carries exactly the
color it was given. -/
theorem getDataCornerTriangles_colors (X Y t : ℚ) (c : Color) :
    vertexColorsAre c.r c.g c.b c.a (getDataCornerTriangles X Y t c) = true := by
  rw [getDataCornerTriangles_expand]
  simp [vertexColorsAre]

/-- Unfolding `getDataLegalMoveCornerTris` under a fixed board offset `o`:
it normalizes the tile coordinate per axis to `coord + (1 − o) − 1/2`, bumps
the alpha by `0.2` and delegates to `getDataCornerTriangles` with
`triSize = 0.50`. -/
theorem cornerTrisAt_eq (o : ℚ) (coords : ℚ × ℚ) (c : Color) :
    getDataLegalMoveCornerTrisAt o coords c =
      getDataCornerTriangles (coords.1 + (1 - o) - 1/2)
        (coords.2 + (1 - o) - 1/2) (1/2) ⟨c.r, c.g, c.b, c.a + 1/5⟩ := by
  show getDataCornerTriangles _ _ (50/100) ⟨c.r, c.g, c.b, c.a + 2/10⟩ = _
  norm_num

/-- Unfolding `getDataLegalMoveDot` under a fixed board offset `o`: it
normalizes the tile coordinate per axis to `coord + (1 − o) − 1/2`, bumps the
alpha by `0.2` and delegates to the circle primitive with radius `0.16` and
the adaptively chosen resolution. -/
theorem dotAt_eq (pos : ℕ → ℚ × ℚ) (o : ℚ) (coords : ℚ × ℚ) (c : Color)
    (scale : ℚ) (p : Bool) :
    getDataLegalMoveDotAt pos o coords c scale p =
      getDataCircle pos (coords.1 + (1 - o) - 1/2) (coords.2 + (1 - o) - 1/2)
        (16/100) (dotResolution scale p).toNat c.r c.g c.b (c.a + 1/5) := by
  show getDataCircle _ _ _ _ _ _ _ _ (c.a + 2/10) = _
  norm_num

/-! ## Claims -/

/-- C1: For every positive scale, the slice resolution computed by
`getDataLegalMoveDot` equals 32 when `perspectiveOn` is true (regardless of
scale); otherwise `⌈28·scale⌉` clamped to at most 32 and at least 5 — in
particular resolution = 32 for every scale ≥ 32/28 and resolution = 5 for
every scale ≤ 5/28. -/
theorem claim1_dot_resolution (scale : ℚ) (hscale : 0 < scale) :
    dotResolution scale true = 32 ∧
    dotResolution scale false = max 5 (min 32 ⌈(28 : ℚ) * scale⌉) ∧
    (32/28 ≤ scale → dotResolution scale false = 32) ∧
    (scale ≤ 5/28 → dotResolution scale false = 5) := by
  refine ⟨dotResolution_true scale, dotResolution_false_eq scale, ?_, ?_⟩
  · intro h
    have h32 : (32 : ℚ) ≤ 28 * scale := by linarith
    have hc : (32 : ℤ) ≤ ⌈(28 : ℚ) * scale⌉ := by
      exact_mod_cast h32.trans (Int.le_ceil _)
    rw [dotResolution_false_eq]
    omega
  · intro h
    have h5 : (28 : ℚ) * scale ≤ 5 := by linarith
    have hc : ⌈(28 : ℚ) * scale⌉ ≤ 5 := by
      rw [Int.ceil_le]; exact_mod_cast h5
    rw [dotResolution_false_eq]
    omega

/-- Witness for C1 at `scale = 2`. -/
theorem claim1_dot_resolution_witness :
    0 < (2 : ℚ) ∧
    (dotResolution 2 true = 32 ∧
     dotResolution 2 false = max 5 (min 32 ⌈(28 : ℚ) * 2⌉) ∧
     (32/28 ≤ (2 : ℚ) → dotResolution 2 false = 32) ∧
     ((2 : ℚ) ≤ 5/28 → dotResolution 2 false = 5)) :=
  ⟨by norm_num, claim1_dot_resolution 2 (by norm_num)⟩

/-- C8: With `perspectiveOn = false`, the chosen resolution is monotonically
non-decreasing in the scale, and for scales strictly between 5/28 and 32/28
it equals `⌈28·scale⌉`. -/
theorem claim8_resolution_monotone (s1 s2 s : ℚ) (hpos : 0 < s1)
    (h12 : s1 ≤ s2) (hlo : 5/28 < s) (hhi : s < 32/28) :
    dotResolution s1 false ≤ dotResolution s2 false ∧
    dotResolution s false = ⌈(28 : ℚ) * s⌉ := by
  constructor
  · have hc : ⌈(28 : ℚ) * s1⌉ ≤ ⌈(28 : ℚ) * s2⌉ :=
      Int.ceil_mono (by nlinarith)
    rw [dotResolution_false_eq, dotResolution_false_eq]
    omega
  · have h1 : (5 : ℚ) < 28 * s := by linarith
    have h2 : (28 : ℚ) * s ≤ 32 := by linarith
    have hcl : ⌈(28 : ℚ) * s⌉ ≤ 32 := by rw [Int.ceil_le]; exact_mod_cast h2
    have hcg : (5 : ℤ) < ⌈(28 : ℚ) * s⌉ := by
      have hle : (5 : ℚ) < (⌈(28 : ℚ) * s⌉ : ℚ) :=
        lt_of_lt_of_le h1 (Int.le_ceil _)
      exact_mod_cast hle
    rw [dotResolution_false_eq]
    omega

/-- Witness for C8 at `s1 = 1/2 ≤ s2 = 1` and `s = 1/2`. -/
theorem claim8_resolution_monotone_witness :
    (0 < (1/2 : ℚ) ∧ (1/2 : ℚ) ≤ 1 ∧ 5/28 < (1/2 : ℚ) ∧ (1/2 : ℚ) < 32/28) ∧
    (dotResolution (1/2) false ≤ dotResolution 1 false ∧
     dotResolution (1/2) false = ⌈(28 : ℚ) * (1/2)⌉) :=
  ⟨⟨by norm_num, by norm_num, by norm_num, by norm_num⟩,
   claim8_resolution_monotone (1/2) 1 (1/2) (by norm_num) (by norm_num)
     (by norm_num) (by norm_num)⟩

/-- C2: For every board-offset oracle, tile coordinate and color, the vertex
buffer returned by `getDataLegalMoveCornerTris` has length exactly 72 floats
(4 triangles × 3 vertices × 6 floats). -/
theorem claim2_cornerTris_length (f : ℕ → ℚ) (coords : ℚ × ℚ)
    (color : Color) :
    ((getDataLegalMoveCornerTris f coords color).1).length = 72 :=
  cornerTris_length f coords color

/-- C3: The circle primitive being modelled (from the spec) as emitting
exactly `resolution` fan triangles of 3 vertices × 6 floats, the buffer
returned by `getDataLegalMoveDot` has length `resolution × 18`, and every
emitted vertex buffer, of either generator, has length a multiple of 18. -/
theorem claim3_buffer_lengths (pos : ℕ → ℚ × ℚ) (f : ℕ → ℚ)
    (coords : ℚ × ℚ) (color : Color) (scale : ℚ) (p : Bool) :
    ((getDataLegalMoveDot pos f coords color scale p).1).length =
      (dotResolution scale p).toNat * 18 ∧
    18 ∣ ((getDataLegalMoveDot pos f coords color scale p).1).length ∧
    18 ∣ ((getDataLegalMoveCornerTris f coords color).1).length := by
  have hlen : ((getDataLegalMoveDot pos f coords color scale p).1).length =
      (dotResolution scale p).toNat * 18 := by
    simp [getDataLegalMoveDot, gsquareCenter, getDataCircle_length]
  refine ⟨hlen, hlen ▸ dvd_mul_left 18 _, ?_⟩
  rw [cornerTris_length]
  norm_num

/-- C4: For every input color `[r, g, b, a]`, the alpha value carried into
every emitted vertex of both generators equals `a + 0.2` exactly, with no
upper clamp, while the r, g, b channels are passed through unchanged. -/
theorem claim4_alpha_offset (pos : ℕ → ℚ × ℚ) (f : ℕ → ℚ) (coords : ℚ × ℚ)
    (color : Color) (scale : ℚ) (p : Bool) :
    vertexColorsAre color.r color.g color.b (color.a + 2/10)
      ((getDataLegalMoveDot pos f coords color scale p).1) = true ∧
    vertexColorsAre color.r color.g color.b (color.a + 2/10)
      ((getDataLegalMoveCornerTris f coords color).1) = true := by
  constructor
  · simp [getDataLegalMoveDot, gsquareCenter, getDataCircle_colors]
  · simp only [getDataLegalMoveCornerTris, gsquareCenter]
    exact getDataCornerTriangles_colors _ _ _ _

/-- C5: For every tile coordinate `(cx, cy)` and board offset `o`, both
generators compute the tile-relative center as
`(cx + (1 − o) − 0.5, cy + (1 − o) − 0.5)` and build their mesh around it. -/
theorem claim5_center_normalization (pos : ℕ → ℚ × ℚ) (o : ℚ)
    (coords : ℚ × ℚ) (c : Color) (scale : ℚ) (p : Bool) :
    getDataLegalMoveDotAt pos o coords c scale p =
      getDataCircle pos (coords.1 + (1 - o) - 1/2) (coords.2 + (1 - o) - 1/2)
        (16/100) (dotResolution scale p).toNat c.r c.g c.b (c.a + 1/5) ∧
    getDataLegalMoveCornerTrisAt o coords c =
      getDataCornerTriangles (coords.1 + (1 - o) - 1/2)
        (coords.2 + (1 - o) - 1/2) (1/2) ⟨c.r, c.g, c.b, c.a + 1/5⟩ :=
  ⟨dotAt_eq pos o coords c scale p, cornerTrisAt_eq o coords c⟩

/-- C6: With `(X, Y)` the computed center, each of the four corner triangles
has its first vertex exactly at the corner (`±0.5` from the center), its
second vertex offset horizontally toward the tile interior by
`triSize/2 = 0.25`, and its third vertex offset vertically toward the tile
interior by `0.25`, with `triSize` fixed at `0.50`. -/
theorem claim6_corner_triangle_geometry (o cx cy X Y : ℚ) (c : Color)
    (hX : X = cx + (1 - o) - 1/2) (hY : Y = cy + (1 - o) - 1/2) :
    getDataLegalMoveCornerTrisAt o (cx, cy) c =
      [X - 1/2, Y + 1/2, c.r, c.g, c.b, c.a + 1/5,
       X - 1/2 + 1/4, Y + 1/2, c.r, c.g, c.b, c.a + 1/5,
       X - 1/2, Y + 1/2 - 1/4, c.r, c.g, c.b, c.a + 1/5,
       X + 1/2, Y + 1/2, c.r, c.g, c.b, c.a + 1/5,
       X + 1/2 - 1/4, Y + 1/2, c.r, c.g, c.b, c.a + 1/5,
       X + 1/2, Y + 1/2 - 1/4, c.r, c.g, c.b, c.a + 1/5,
       X - 1/2, Y - 1/2, c.r, c.g, c.b, c.a + 1/5,
       X - 1/2 + 1/4, Y - 1/2, c.r, c.g, c.b, c.a + 1/5,
       X - 1/2, Y - 1/2 + 1/4, c.r, c.g, c.b, c.a + 1/5,
       X + 1/2, Y - 1/2, c.r, c.g, c.b, c.a + 1/5,
       X + 1/2 - 1/4, Y - 1/2, c.r, c.g, c.b, c.a + 1/5,
       X + 1/2, Y - 1/2 + 1/4, c.r, c.g, c.b, c.a + 1/5] := by
  subst hX hY
  rw [cornerTrisAt_eq, getDataCornerTriangles_expand]
  norm_num

/-- Witness for C6 at `o = 0`, `(cx, cy) = (1, 2)`, so `X = 3/2`, `Y = 5/2`. -/
theorem claim6_corner_triangle_geometry_witness :
    ((3/2 : ℚ) = 1 + (1 - 0) - 1/2 ∧ (5/2 : ℚ) = 2 + (1 - 0) - 1/2) ∧
    getDataLegalMoveCornerTrisAt 0 (1, 2) ⟨1, 0, 0, 1/2⟩ =
      [3/2 - 1/2, 5/2 + 1/2, (1:ℚ), 0, 0, 1/2 + 1/5,
       3/2 - 1/2 + 1/4, 5/2 + 1/2, 1, 0, 0, 1/2 + 1/5,
       3/2 - 1/2, 5/2 + 1/2 - 1/4, 1, 0, 0, 1/2 + 1/5,
       3/2 + 1/2, 5/2 + 1/2, 1, 0, 0, 1/2 + 1/5,
       3/2 + 1/2 - 1/4, 5/2 + 1/2, 1, 0, 0, 1/2 + 1/5,
       3/2 + 1/2, 5/2 + 1/2 - 1/4, 1, 0, 0, 1/2 + 1/5,
       3/2 - 1/2, 5/2 - 1/2, 1, 0, 0, 1/2 + 1/5,
       3/2 - 1/2 + 1/4, 5/2 - 1/2, 1, 0, 0, 1/2 + 1/5,
       3/2 - 1/2, 5/2 - 1/2 + 1/4, 1, 0, 0, 1/2 + 1/5,
       3/2 + 1/2, 5/2 - 1/2, 1, 0, 0, 1/2 + 1/5,
       3/2 + 1/2 - 1/4, 5/2 - 1/2, 1, 0, 0, 1/2 + 1/5,
       3/2 + 1/2, 5/2 - 1/2 + 1/4, 1, 0, 0, 1/2 + 1/5] :=
  ⟨⟨by norm_num, by norm_num⟩,
   claim6_corner_triangle_geometry 0 1 2 (3/2) (5/2) ⟨1, 0, 0, 1/2⟩
     (by norm_num) (by norm_num)⟩

/-- C10: `getDataLegalMoveCornerTris` is translation-equivariant in the tile
coordinate: for every color, fixed board offset and tile coordinate
`(cx, cy)`, its output is the output at `(0, 0)` with `cx` added to every
position-x float and `cy` added to every position-y float, the color floats
being identical. -/
theorem claim10_translation_equivariance (o cx cy : ℚ) (c : Color) :
    getDataLegalMoveCornerTrisAt o (cx, cy) c =
      translateBuf cx cy (getDataLegalMoveCornerTrisAt o (0, 0) c) := by
  rw [cornerTrisAt_eq, cornerTrisAt_eq, getDataCornerTriangles_expand,
    getDataCornerTriangles_expand]
  simp only [translateBuf]
  norm_num
  ring_nf
  simp

/-- C7 fails on the code: at a concrete input the four signed areas of the
emitted triangles are `(−1/16, +1/16, +1/16, −1/16)` — the top-right and
bottom-left triangles are wound opposite to the top-left and bottom-right
ones, so the four triangles do not share one winding sign (the source's own
comment asserts "triangles are clockwise in each corner"). -/
theorem claim7_winding_mixed :
    bufTriangleSignedArea
        (getDataLegalMoveCornerTrisAt (1/2) (0, 0) ⟨1, 0, 0, 1/2⟩) 0
      = -(1/16) ∧
    bufTriangleSignedArea
        (getDataLegalMoveCornerTrisAt (1/2) (0, 0) ⟨1, 0, 0, 1/2⟩) 1
      = 1/16 ∧
    bufTriangleSignedArea
        (getDataLegalMoveCornerTrisAt (1/2) (0, 0) ⟨1, 0, 0, 1/2⟩) 2
      = 1/16 ∧
    bufTriangleSignedArea
        (getDataLegalMoveCornerTrisAt (1/2) (0, 0) ⟨1, 0, 0, 1/2⟩) 3
      = -(1/16) := by
  rw [cornerTrisAt_eq, getDataCornerTriangles_expand]
  norm_num [bufTriangleSignedArea, triSignedArea, List.getD]

/-- C9 fails on the code: on a board oracle whose successive reads return
`0, 1, 2, …`, the corner-triangle generator performs two reads (not one), and
no single offset reading explains its output: the buffer differs from the
fixed-offset buffer for every offset value. -/
theorem claim9_counterexample :
    (getDataLegalMoveCornerTris (fun n => (n : ℚ)) (0, 0) ⟨1, 0, 0, 1/2⟩).2
      ≠ 1 ∧
    ¬ ∃ o : ℚ,
      (getDataLegalMoveCornerTris (fun n => (n : ℚ)) (0, 0) ⟨1, 0, 0, 1/2⟩).1
        = getDataLegalMoveCornerTrisAt o (0, 0) ⟨1, 0, 0, 1/2⟩ := by
  constructor
  · simp [getDataLegalMoveCornerTris, gsquareCenter]
  · rintro ⟨o, h⟩
    have hL : (getDataLegalMoveCornerTris (fun n => (n : ℚ)) (0, 0)
        ⟨1, 0, 0, 1/2⟩).1 =
        getDataCornerTriangles (1/2) (-(1/2)) (1/2) ⟨1, 0, 0, 1/2 + 1/5⟩ := by
      show getDataCornerTriangles (0 + (1 - 0) - 1/2) (0 + (1 - 1) - 1/2)
        (50/100) ⟨1, 0, 0, 1/2 + 2/10⟩ = _
      norm_num
    rw [hL, cornerTrisAt_eq, getDataCornerTriangles_expand,
      getDataCornerTriangles_expand] at h
    have e0 := congrArg (fun l => l.getD 0 0) h
    have e1 := congrArg (fun l => l.getD 1 0) h
    simp [List.getD] at e0 e1
    linarith

/-- C9, amended: each generator reads the board's square-center offset
exactly twice per invocation — once for the x axis and once for the y axis —
and when the two reads return the same value the output coincides with the
fixed-offset output for that value. -/
theorem claim9_two_reads (pos : ℕ → ℚ × ℚ) (f : ℕ → ℚ) (coords : ℚ × ℚ)
    (c : Color) (scale : ℚ) (p : Bool) (hf : f 0 = f 1) :
    (getDataLegalMoveDot pos f coords c scale p).2 = 2 ∧
    (getDataLegalMoveCornerTris f coords c).2 = 2 ∧
    (getDataLegalMoveDot pos f coords c scale p).1 =
      getDataLegalMoveDotAt pos (f 0) coords c scale p ∧
    (getDataLegalMoveCornerTris f coords c).1 =
      getDataLegalMoveCornerTrisAt (f 0) coords c := by
  refine ⟨rfl, rfl, ?_, ?_⟩
  · simp [getDataLegalMoveDot, getDataLegalMoveDotAt, gsquareCenter, ← hf]
  · simp [getDataLegalMoveCornerTris, getDataLegalMoveCornerTrisAt,
      gsquareCenter, ← hf]

/-- Witness for C9 (amended) on the constant oracle returning `1/2`. -/
theorem claim9_two_reads_witness :
    ((fun _ : ℕ => (1/2 : ℚ)) 0 = (fun _ : ℕ => (1/2 : ℚ)) 1) ∧
    ((getDataLegalMoveDot (fun _ => (1, 0)) (fun _ => (1/2 : ℚ)) (0, 0)
        ⟨1, 0, 0, 1/2⟩ 1 false).2 = 2 ∧
     (getDataLegalMoveCornerTris (fun _ => (1/2 : ℚ)) (0, 0)
        ⟨1, 0, 0, 1/2⟩).2 = 2 ∧
     (getDataLegalMoveDot (fun _ => (1, 0)) (fun _ => (1/2 : ℚ)) (0, 0)
        ⟨1, 0, 0, 1/2⟩ 1 false).1 =
       getDataLegalMoveDotAt (fun _ => (1, 0)) ((fun _ : ℕ => (1/2 : ℚ)) 0)
         (0, 0) ⟨1, 0, 0, 1/2⟩ 1 false ∧
     (getDataLegalMoveCornerTris (fun _ => (1/2 : ℚ)) (0, 0)
        ⟨1, 0, 0, 1/2⟩).1 =
       getDataLegalMoveCornerTrisAt ((fun _ : ℕ => (1/2 : ℚ)) 0) (0, 0)
         ⟨1, 0, 0, 1/2⟩) :=
  ⟨rfl, claim9_two_reads (fun _ => (1, 0)) (fun _ => (1/2 : ℚ)) (0, 0)
    ⟨1, 0, 0, 1/2⟩ 1 false rfl⟩

